import Mathlib

/-!
Verification of the log-record normalization layer in `log.c` (ksstech/log).

The C module intercepts `esp_log_write`/`esp_log_writev` calls, applies a
process-wide severity threshold, strips known vendor format-string artifacts,
and forwards surviving records to the external sink `xvSyslog`.

Shallow embedding conventions:
- a C string is a `List Char` (the bytes up to the NUL terminator); a possibly
  NULL `const char *` parameter is an `Option (List Char)`;
- severity levels (`esp_log_level_t`) are `Nat` ordinals, 0 = NONE .. 5 = VERBOSE;
- the mutable global `s_log_default_level` is passed explicitly as the
  `threshold` argument (its value at the moment of the call);
- the variadic argument cursor is a `List α` for an opaque argument type `α`;
  `va_arg` consumption is modelled by `List.drop`;
- the sink call `xvSyslog(priority, tag, format, args)` is modelled as the
  function's result: `none` when the sink is never invoked, `some call` with
  the exact arguments otherwise.
-/

set_option autoImplicit false

/-- A C string: the characters up to the NUL terminator. -/
abbrev CStr := List Char

/-- The `esp_log_level_t` ordinals from `esp_log.h`. -/
def ESP_LOG_NONE : Nat := 0

def ESP_LOG_ERROR : Nat := 1

def ESP_LOG_WARN : Nat := 2

def ESP_LOG_INFO : Nat := 3

def ESP_LOG_DEBUG : Nat := 4

def ESP_LOG_VERBOSE : Nat := 5

/-- Modelled from the spec: `xstrlen` comes from the external header
`x_string_general.h`, which is not under `src/`. The spec's rule that a
null/absent format string is treated as `Suppress` requires the length of a
null string to be 0; on a proper string it is the C string length. -/
def xstrlen : Option CStr → Nat
  | none => 0
  | some s => s.length

/-- `static const char esp_log_xlate[6] = { 0, 3, 4, 5, 6, 7 }` from `log.c`,
read at index `level`. Indexing past 5 is undefined behaviour in the C
(callers must pass valid `esp_log_level_t` ordinals); the model returns 0
there, and no theorem depends on that range. -/
def esp_log_xlate (level : Nat) : Nat :=
  [0, 3, 4, 5, 6, 7].getD level 0

/-- The initial value of `s_log_default_level` in `log.c`: `ESP_LOG_WARN`. -/
structure LogState where
  s_log_default_level : Nat
  deriving DecidableEq

/-- `static esp_log_level_t s_log_default_level = ESP_LOG_WARN ;` -/
def initLogState : LogState :=
  { s_log_default_level := ESP_LOG_WARN }

/-- `esp_log_level_set` from `log.c`: ignores `tag`, overwrites the
process-wide threshold unconditionally. -/
def esp_log_level_set (tag : CStr) (level : Nat) (st : LogState) : LogState :=
  { st with s_log_default_level := level }

/-- Modelled from the spec: `esp_log_level_get` is declared in
`src/include/esp_log.h` but has no definition under `src/`; the spec's
`Get() -> Severity` returns the current process-wide threshold. -/
def esp_log_level_get (tag : CStr) (st : LogState) : Nat :=
  st.s_log_default_level

/-- One invocation of the sink `xvSyslog(Priority, MsgID, format, args)`. -/
structure SinkCall (α : Type) where
  priority : Nat
  tag : CStr
  format : CStr
  args : List α
  deriving DecidableEq

/-- The tag `"wifi"` hard-coded in the degenerate-continuation check. -/
def wifiTag : CStr := ['w', 'i', 'f', 'i']

/-- The format string `"%s"` of the degenerate continuation line. -/
def pctS : CStr := ['%', 's']

/-- The artifact-offset scan of `esp_log_writev` (log.c lines 57-63):

    if (Len > 17 && format[17] == ':')      Idx = 18 ;
    else if (Len > 10 && format[10] == ':') Idx = 11 ;
    else                                    Idx = 0 ;

`f.get? i = some c` holds exactly when index `i` is in bounds and the byte
there is `c`, so the short-circuit length guard of `&&` is captured by the
conjunction. -/
def matchIdx (f : CStr) : Nat :=
  if 17 < f.length ∧ f.get? 17 = some ':' then 18
  else if 10 < f.length ∧ f.get? 10 = some ':' then 11
  else 0

/-- `esp_log_writev` from `log.c`. `threshold` is the value of the global
`s_log_default_level` at the call. The result is `none` when the function
returns without invoking `xvSyslog`, and `some call` when it invokes the sink
with exactly the fields of `call`. The body mirrors the C line by line:
threshold filter, `Len = xstrlen(format)`, offset scan, pointer advance and
double `va_arg` spill when `Idx != 0`, the `Len == 0` early return, the
`"%s"`/`"wifi"` duplicate-line suppression, then the sink call with
`esp_log_xlate[level]`. -/
def esp_log_writev {α : Type} (threshold level : Nat) (tag : CStr)
    (format : Option CStr) (args : List α) : Option (SinkCall α) :=
  if level ≤ threshold then
    let f0 := format.getD []
    let Idx := matchIdx f0
    let f := f0.drop Idx
    let Len := xstrlen format - Idx
    let args' := if Idx ≠ 0 then args.drop 2 else args
    if Len = 0 then none
    else if Len = 2 ∧ f = pctS ∧ tag = wifiTag then none
    else some ⟨esp_log_xlate level, tag, f, args'⟩
  else none

/-- `esp_log_write` from `log.c`: packages its variadic tail into a `va_list`
and delegates to `esp_log_writev`. -/
def esp_log_write {α : Type} (threshold level : Nat) (tag : CStr)
    (format : Option CStr) (args : List α) : Option (SinkCall α) :=
  esp_log_writev threshold level tag format args

/-- The wifi artifact header of the spec's scenario:
`"%c (%d) %s: connecting..."`. The terminating `:` of the header sits at byte
offset 10, so the offset scan yields `Idx = 11`. -/
def fmtWifiHeader : CStr := String.toList "%c (%d) %s: connecting..."

/-- What is left of `fmtWifiHeader` after the 11-byte advance: the space that
followed the colon remains. -/
def residWifiHeader : CStr := String.toList " connecting..."

/-- A 12-byte format string with a `:` at offset 10 and one byte after the
stripped header, used as a concrete artifact witness. -/
def fmtColon10 : CStr := String.toList "aaaaaaaaaa:X"

/-- Evaluation lemma: for an eligible level and a proper (non-null) format
string, `esp_log_writev` is the three-way case split of the source, expressed
through `matchIdx`. All claim proofs about the normalizer go through this. -/
theorem writev_eval {α : Type} (threshold level : Nat) (tag f : CStr)
    (args : List α) (hlvl : level ≤ threshold) :
    esp_log_writev threshold level tag (some f) args =
      if f.length - matchIdx f = 0 then none
      else if f.length - matchIdx f = 2 ∧ f.drop (matchIdx f) = pctS ∧ tag = wifiTag then
        none
      else some ⟨esp_log_xlate level, tag, f.drop (matchIdx f),
        if matchIdx f ≠ 0 then args.drop 2 else args⟩ := by
  unfold esp_log_writev
  rw [if_pos hlvl]
  rfl

/-- Whenever the sink is invoked, the priority it receives is
`esp_log_xlate[level]` (stated via `getD` so the filtered/suppressed cases are
trivially true). -/
theorem writev_priority {α : Type} (threshold level : Nat) (tag : CStr)
    (format : Option CStr) (args : List α) :
    ((esp_log_writev threshold level tag format args).map SinkCall.priority).getD
        (esp_log_xlate level) = esp_log_xlate level := by
  simp only [esp_log_writev]
  by_cases h : level ≤ threshold
  · rw [if_pos h]
    split
    · rfl
    · split
      · rfl
      · rfl
  · rw [if_neg h]
    rfl

/-- Claim C1: for every call `Write`/`WriteV(level, tag, format, args)` where
`level` is numerically greater (more verbose) than the current threshold, the
sink is never invoked and the call returns without inspecting the format
string or consuming any positional argument: the result is `none` for every
`tag`, `format` (null included) and argument list alike. -/
theorem threshold_filters_before_parsing {α : Type} (threshold level : Nat)
    (tag : CStr) (format : Option CStr) (args : List α)
    (h : threshold < level) :
    esp_log_writev threshold level tag format args = none ∧
    esp_log_write threshold level tag format args = none := by
  have hn : ¬ level ≤ threshold := Nat.not_le.mpr h
  exact ⟨by simp [esp_log_writev, hn], by simp [esp_log_write, esp_log_writev, hn]⟩

theorem threshold_filters_before_parsing_witness :
    (2 : Nat) < 3 ∧
    (esp_log_writev 2 3 ['a'] (some ['x']) ([0] : List Nat) = none ∧
     esp_log_write 2 3 ['a'] (some ['x']) ([0] : List Nat) = none) :=
  ⟨by decide, threshold_filters_before_parsing 2 3 ['a'] (some ['x']) [0] (by decide)⟩

/-- Claim C2 (counterexample): the empty format string matches no artifact
pattern (no `:` at offset 10 or 17 — the length guards fail; it is not the
degenerate `"%s"` shape), the level passes the threshold, yet the sink is NOT
invoked: the `Len == 0` early return suppresses the record, so the claim as
stated fails on the empty format string. -/
theorem passthrough_counterexample :
    (1 : Nat) ≤ 2 ∧ matchIdx [] = 0 ∧ ([] : CStr) ≠ pctS ∧
    esp_log_writev 2 1 ['a'] (some []) ([] : List Nat) = none := by decide

/-- Claim C2 (amended): for every call with `level` at or below the threshold
whose format string is non-empty and matches no artifact pattern (offset scan
yields 0, and the format/tag pair is not the degenerate `"%s"`-with-`"wifi"`
shape), the sink is invoked with that format and argument list unchanged. -/
theorem passthrough_unmatched_format {α : Type} (threshold level : Nat)
    (tag f : CStr) (args : List α)
    (hlvl : level ≤ threshold) (hidx : matchIdx f = 0) (hne : f ≠ [])
    (hdeg : ¬(f = pctS ∧ tag = wifiTag)) :
    esp_log_writev threshold level tag (some f) args =
      some ⟨esp_log_xlate level, tag, f, args⟩ := by
  have h0 : f.length ≠ 0 := by simpa using hne
  rw [writev_eval threshold level tag f args hlvl, hidx]
  simp only [Nat.sub_zero, List.drop_zero]
  rw [if_neg h0, if_neg (fun h => hdeg h.2)]
  simp

theorem passthrough_unmatched_format_witness :
    ((2 : Nat) ≤ 2 ∧ matchIdx ['h', 'i'] = 0 ∧ (['h', 'i'] : CStr) ≠ [] ∧
      ¬((['h', 'i'] : CStr) = pctS ∧ (['a'] : CStr) = wifiTag)) ∧
    esp_log_writev 2 2 ['a'] (some ['h', 'i']) ([5] : List Nat) =
      some ⟨4, ['a'], ['h', 'i'], [5]⟩ :=
  ⟨by decide,
   passthrough_unmatched_format 2 2 ['a'] ['h', 'i'] [5]
     (by decide) (by decide) (by decide) (by decide)⟩

/-- Claim C9: a null format string is treated as suppress — for every call
with level at or below the threshold and `format = NULL`, the sink is never
invoked and the call returns (totality of the model gives "without error"). -/
theorem null_format_suppressed {α : Type} (threshold level : Nat) (tag : CStr)
    (args : List α) (h : level ≤ threshold) :
    esp_log_writev threshold level tag none args = none := by
  unfold esp_log_writev
  rw [if_pos h]
  rfl

theorem null_format_suppressed_witness :
    (3 : Nat) ≤ 3 ∧
    esp_log_writev 3 3 ['a'] (none : Option CStr) ([1] : List Nat) = none :=
  ⟨by decide, null_format_suppressed 3 3 ['a'] [1] (by decide)⟩

/-- Claim C10: before any `esp_log_level_set` call the threshold is
`ESP_LOG_WARN` (the compile-time default), so records at ERROR or WARN pass
the threshold filter (shown forwarded on an artifact-free one-byte format),
while INFO, DEBUG and VERBOSE records are filtered out for every tag, format
and argument list. -/
theorem default_threshold_warn :
    initLogState.s_log_default_level = ESP_LOG_WARN ∧
    (∀ (tag : CStr) (format : Option CStr) (args : List Nat),
      esp_log_writev initLogState.s_log_default_level ESP_LOG_INFO tag format args = none ∧
      esp_log_writev initLogState.s_log_default_level ESP_LOG_DEBUG tag format args = none ∧
      esp_log_writev initLogState.s_log_default_level ESP_LOG_VERBOSE tag format args = none) ∧
    (∀ (tag : CStr) (args : List Nat),
      esp_log_writev initLogState.s_log_default_level ESP_LOG_ERROR tag (some ['x']) args =
        some ⟨3, tag, ['x'], args⟩ ∧
      esp_log_writev initLogState.s_log_default_level ESP_LOG_WARN tag (some ['x']) args =
        some ⟨4, tag, ['x'], args⟩) :=
  ⟨rfl, fun _ _ _ => ⟨rfl, rfl, rfl⟩, fun _ _ => ⟨rfl, rfl⟩⟩

/-- Claim C3: when the format string matches the duplicate-header artifact
(terminating `:` at byte offset 17 for the ANSI-color variant, or at offset
10, each under its length guard) and the level is eligible, the call is fully
characterized: the format is advanced past the recognized `matchIdx`-byte
header, exactly two leading positional arguments are spilled from the
argument cursor, and if nothing remains of the format after stripping the
record is suppressed. -/
theorem artifact_header_stripped {α : Type} (threshold level : Nat)
    (tag f : CStr) (args : List α) (hlvl : level ≤ threshold)
    (hm : (17 < f.length ∧ f.get? 17 = some ':') ∨
          (10 < f.length ∧ f.get? 10 = some ':')) :
    esp_log_writev threshold level tag (some f) args =
      if f.length = matchIdx f then none
      else if f.drop (matchIdx f) = pctS ∧ tag = wifiTag then none
      else some ⟨esp_log_xlate level, tag, f.drop (matchIdx f), args.drop 2⟩ := by
  have hb : matchIdx f ≠ 0 ∧ matchIdx f ≤ f.length := by
    unfold matchIdx
    by_cases h17 : 17 < f.length ∧ f.get? 17 = some ':'
    · obtain ⟨hl, hc⟩ := h17
      rw [if_pos ⟨hl, hc⟩]
      exact ⟨by omega, by omega⟩
    · rcases hm with h | h10
      · exact absurd h h17
      · obtain ⟨hl, hc⟩ := h10
        rw [if_neg h17, if_pos ⟨hl, hc⟩]
        exact ⟨by omega, by omega⟩
  obtain ⟨hne, hle⟩ := hb
  rw [writev_eval threshold level tag f args hlvl]
  rw [if_pos hne]
  by_cases h0 : f.length = matchIdx f
  · rw [if_pos (by omega), if_pos h0]
  · rw [if_neg (by omega : ¬(f.length - matchIdx f = 0)), if_neg h0]
    by_cases hdeg : f.drop (matchIdx f) = pctS ∧ tag = wifiTag
    · have hl2 : f.length - matchIdx f = 2 := by
        have h := congrArg List.length hdeg.1
        simpa [pctS] using h
      rw [if_pos ⟨hl2, hdeg⟩, if_pos hdeg]
    · rw [if_neg (fun h => hdeg h.2), if_neg hdeg]

theorem artifact_header_stripped_witness :
    ((3 : Nat) ≤ 3 ∧
     ((17 < fmtColon10.length ∧ fmtColon10.get? 17 = some ':') ∨
      (10 < fmtColon10.length ∧ fmtColon10.get? 10 = some ':'))) ∧
    esp_log_writev 3 3 ['a'] (some fmtColon10) ([1, 2, 3] : List Nat) =
      (if fmtColon10.length = matchIdx fmtColon10 then none
       else if fmtColon10.drop (matchIdx fmtColon10) = pctS ∧ (['a'] : CStr) = wifiTag then
         none
       else some ⟨esp_log_xlate 3, ['a'], fmtColon10.drop (matchIdx fmtColon10),
         ([1, 2, 3] : List Nat).drop 2⟩) ∧
    esp_log_writev 3 3 ['a'] (some fmtColon10) ([1, 2, 3] : List Nat) =
      some ⟨5, ['a'], ['X'], [3]⟩ :=
  ⟨by decide,
   artifact_header_stripped 3 3 ['a'] fmtColon10 [1, 2, 3] (by decide) (by decide),
   by decide⟩

/-- Claim C4 (counterexample): in the spec's scenario
`Write(Info, "wifi", "%c (%d) %s: connecting...", tagPtr, ts)` with the
threshold at Info, the sink IS called once with tag `"wifi"` and the two
spilled arguments are gone, but the residual format is `" connecting..."` —
the colon at offset 10 ends the recognized header, so the space after it
survives — not the `"connecting..."` the claim states. -/
theorem wifi_scenario_counterexample :
    esp_log_writev 3 3 wifiTag (some fmtWifiHeader) ([10, 20] : List Nat) =
      some ⟨5, wifiTag, residWifiHeader, []⟩ ∧
    residWifiHeader ≠ String.toList "connecting..." := by decide

/-- Claim C4 (amended): for `Write(Info, "wifi", "%c (%d) %s: connecting...",
tagPtr, ts)` with the threshold at Info or more verbose, the sink is called
exactly once with tag `"wifi"` and residual format `" connecting..."` (the
space following the stripped 11-byte header remains), and the two spilled
arguments are not passed on to the sink. -/
theorem wifi_scenario_amended {α : Type} (threshold : Nat)
    (h : ESP_LOG_INFO ≤ threshold) (tagPtr ts : α) :
    esp_log_writev threshold ESP_LOG_INFO wifiTag (some fmtWifiHeader) [tagPtr, ts] =
      some ⟨5, wifiTag, residWifiHeader, []⟩ := by
  rw [writev_eval threshold ESP_LOG_INFO wifiTag fmtWifiHeader [tagPtr, ts] h]
  rfl

theorem wifi_scenario_amended_witness :
    ESP_LOG_INFO ≤ 4 ∧
    esp_log_writev 4 ESP_LOG_INFO wifiTag (some fmtWifiHeader) ([10, 20] : List Nat) =
      some ⟨5, wifiTag, residWifiHeader, []⟩ :=
  ⟨by decide, wifi_scenario_amended 4 (by decide) 10 20⟩

/-- Claim C5: for every eligible call whose residual format string (after the
offset scan strips `matchIdx f` bytes; `matchIdx f = 0` covers a format that
is literally `"%s"`) is exactly `"%s"`, the record is suppressed when the tag
is exactly `"wifi"` and is forwarded to the sink unchanged for every other
tag — the suppression never applies outside its owning tag. -/
theorem degenerate_continuation_tag_scoped {α : Type} (threshold level : Nat)
    (tag f : CStr) (args : List α) (hlvl : level ≤ threshold)
    (hres : f.drop (matchIdx f) = pctS) :
    esp_log_writev threshold level tag (some f) args =
      if tag = wifiTag then none
      else some ⟨esp_log_xlate level, tag, pctS,
        if matchIdx f ≠ 0 then args.drop 2 else args⟩ := by
  have hlen : f.length - matchIdx f = 2 := by
    have h := congrArg List.length hres
    simpa [pctS] using h
  rw [writev_eval threshold level tag f args hlvl, hres]
  rw [if_neg (by omega : ¬(f.length - matchIdx f = 0))]
  by_cases htag : tag = wifiTag
  · rw [if_pos ⟨hlen, rfl, htag⟩, if_pos htag]
  · rw [if_neg (fun h => htag h.2.2), if_neg htag]

theorem degenerate_continuation_tag_scoped_witness :
    (((3 : Nat) ≤ 3) ∧ pctS.drop (matchIdx pctS) = pctS) ∧
    (esp_log_writev 3 3 wifiTag (some pctS) ([7] : List Nat) =
      if wifiTag = wifiTag then none
      else some ⟨esp_log_xlate 3, wifiTag, pctS,
        if matchIdx pctS ≠ 0 then ([7] : List Nat).drop 2 else [7]⟩) ∧
    esp_log_writev 3 3 wifiTag (some pctS) ([7] : List Nat) = none ∧
    esp_log_writev 3 3 ['a', 'p', 'p'] (some pctS) ([7] : List Nat) =
      some ⟨5, ['a', 'p', 'p'], pctS, [7]⟩ :=
  ⟨by decide,
   degenerate_continuation_tag_scoped 3 3 wifiTag pctS [7] (by decide) (by decide),
   by decide, by decide⟩

/-- Claim C6: the level-to-priority translation is the pure total function
`esp_log_xlate` (a fixed table, hence deterministic), for every severity
level greater than 0 (up to VERBOSE, the last valid ordinal) the resulting
sink priority equals `level + 2` (additive transform), and the dispatch path
realizes exactly this translation: any priority `esp_log_writev` hands to the
sink at that level is `level + 2`. -/
theorem xlate_additive_transform {α : Type} (threshold level : Nat)
    (tag : CStr) (format : Option CStr) (args : List α)
    (h1 : 0 < level) (h2 : level ≤ ESP_LOG_VERBOSE) :
    esp_log_xlate level = level + 2 ∧
    ((esp_log_writev threshold level tag format args).map SinkCall.priority).getD
        (level + 2) = level + 2 := by
  have hx : esp_log_xlate level = level + 2 := by
    have h2' : level ≤ 5 := h2
    interval_cases level <;> rfl
  refine ⟨hx, ?_⟩
  rw [← hx]
  exact writev_priority threshold level tag format args

theorem xlate_additive_transform_witness :
    ((0 : Nat) < 3 ∧ (3 : Nat) ≤ ESP_LOG_VERBOSE) ∧
    (esp_log_xlate 3 = 3 + 2 ∧
     ((esp_log_writev 2 3 ['a'] (some ['x']) ([] : List Nat)).map SinkCall.priority).getD
        (3 + 2) = 3 + 2) :=
  ⟨by decide, xlate_additive_transform 2 3 ['a'] (some ['x']) [] (by decide) (by decide)⟩

/-- Claim C7: `esp_log_level_set` overwrites the process-wide threshold
unconditionally — for every starting state, every tag argument and every
level the new state is exactly `{ s_log_default_level := level }` — and a
subsequent `esp_log_level_get` (with any tag) returns that level; in
particular setting DEBUG and reading back yields DEBUG. -/
theorem set_then_get_roundtrip (st : LogState) (tag1 tag2 : CStr) (level : Nat) :
    esp_log_level_set tag1 level st = { s_log_default_level := level } ∧
    esp_log_level_get tag2 (esp_log_level_set tag1 level st) = level ∧
    esp_log_level_get tag2 (esp_log_level_set tag1 ESP_LOG_DEBUG st) = ESP_LOG_DEBUG :=
  ⟨rfl, rfl, rfl⟩

/-- Claim C8: every artifact pattern check is length-guarded before indexing:
the offset scan either matches nothing, or yields 11 with the format at least
11 bytes long (so the byte read at offset 10 was in bounds), or yields 18
with the format at least 18 bytes long (so the byte read at offset 17 was in
bounds); consequently a format shorter than a pattern's minimum offset never
matches it. Moreover the scan's result depends only on the first 18 bytes of
the format — no position beyond the guarded offsets is ever examined. -/
theorem pattern_checks_length_guarded (f : CStr) :
    (matchIdx f = 0 ∨ (matchIdx f = 11 ∧ 11 ≤ f.length) ∨
      (matchIdx f = 18 ∧ 18 ≤ f.length)) ∧
    matchIdx f = matchIdx (f.take 18) := by
  constructor
  · unfold matchIdx
    by_cases h17 : 17 < f.length ∧ f.get? 17 = some ':'
    · rw [if_pos h17]
      exact Or.inr (Or.inr ⟨rfl, h17.1⟩)
    · rw [if_neg h17]
      by_cases h10 : 10 < f.length ∧ f.get? 10 = some ':'
      · rw [if_pos h10]
        exact Or.inr (Or.inl ⟨rfl, h10.1⟩)
      · rw [if_neg h10]
        exact Or.inl rfl
  · unfold matchIdx
    refine if_congr ?_ rfl (if_congr ?_ rfl rfl)
    · rw [List.length_take, List.get?_take (by norm_num)]
      refine and_congr ?_ Iff.rfl
      omega
    · rw [List.length_take, List.get?_take (by norm_num)]
      refine and_congr ?_ Iff.rfl
      omega
